import Mathlib

/-!
A shallow embedding of the visual-regression / baseline workflow and of the
CLI dispatch of the Symbiotic MCP server (source functions `visualRegression`,
`updateBaseline`, `handleTool`, and the top-level CLI argument handling).

Modelling conventions:
* a file system is a partial map from path strings to stored byte lists;
* the captured screenshot bytes, the Math.random index stream and the two
  timestamp() results are explicit inputs of the embedded operation
  (the browser capture itself is I/O and cannot be embedded);
* JavaScript numbers are modelled as rationals;
* md5 content-hash equality (createHash md5 over the two buffers) is modelled
  as byte equality of the buffers, i.e. the hash is treated as collision-free.
-/

/-- Byte payload of a snapshot file (a Node Buffer's contents). -/
abbrev Bytes := List ℕ

/-- File-system state: maps a path string to the bytes stored there, if any.
existsSync p is (fs p).isSome. -/
abbrev FS := String → Option Bytes

/-- Source constant OUTPUT_DIR. -/
def OUTPUT_DIR : String := "/Users/yuripetrinim5/Downloads"

/-- Node path.join for a directory and one relative segment, before
normalization: concatenation with a slash. Node additionally normalizes the
result (see normalizePath below); two of the raw path strings built here
denote the same real file exactly when their normalizations coincide, which
for the paths of one run can happen only between the diff path and the
current path, via a traversal-containing name plus equal timestamps. -/
def pathJoin (dir file : String) : String := dir ++ "/" ++ file

/-- Source constant REPORTS_DIR = join(OUTPUT_DIR, 'symbiotic-reports'). -/
def REPORTS_DIR : String := pathJoin OUTPUT_DIR "symbiotic-reports"

/-- Source constant BASELINES_DIR = join(REPORTS_DIR, 'baselines'). -/
def BASELINES_DIR : String := pathJoin REPORTS_DIR "baselines"

/-- Source constant DIFFS_DIR = join(REPORTS_DIR, 'diffs'). -/
def DIFFS_DIR : String := pathJoin REPORTS_DIR "diffs"

/-- Baseline path: join(BASELINES_DIR, baseline_{name}_{viewport}.png). -/
def baselinePathOf (name viewport : String) : String :=
  pathJoin BASELINES_DIR ("baseline_" ++ name ++ "_" ++ viewport ++ ".png")

/-- Current-snapshot path: join(DIFFS_DIR, current_{name}_{viewport}_{ts}.png). -/
def currentPathOf (name viewport ts : String) : String :=
  pathJoin DIFFS_DIR ("current_" ++ name ++ "_" ++ viewport ++ "_" ++ ts ++ ".png")

/-- Diff-visualization path: join(DIFFS_DIR, diff_{name}_{viewport}_{ts}.png). -/
def diffPathOf (name viewport ts : String) : String :=
  pathJoin DIFFS_DIR ("diff_" ++ name ++ "_" ++ viewport ++ "_" ++ ts ++ ".png")

/-- readFileSync. The paths read by the embedded code are always present, so a
default of [] for a missing file does not change any modelled behaviour. -/
def readFile (fs : FS) (p : String) : Bytes := (fs p).getD []

/-- writeFileSync (also page.screenshot with a path argument). -/
def writeFile (fs : FS) (p : String) (b : Bytes) : FS :=
  fun q => if q = p then some b else fs q

/-- unlinkSync. -/
def unlinkFile (fs : FS) (p : String) : FS :=
  fun q => if q = p then none else fs q

/-- Split a path into its slash-separated segments. -/
def splitSlash : List Char → List Char → List String
  | [], acc => [String.mk acc.reverse]
  | c :: cs, acc =>
    if c = '/' then String.mk acc.reverse :: splitSlash cs []
    else splitSlash cs (c :: acc)

/-- Resolve . and .. segments and drop empty ones, as Node's normalization
of an absolute POSIX path does (a .. at the root is discarded). -/
def normSegs : List String → List String → List String
  | [], acc => acc.reverse
  | seg :: rest, acc =>
    if seg = "" ∨ seg = "." then normSegs rest acc
    else if seg = ".." then normSegs rest acc.tail
    else normSegs rest (seg :: acc)

/-- Reassemble segments with slashes. -/
def joinSegs : List String → String
  | [] => ""
  | [s] => s
  | s :: rest => s ++ "/" ++ joinSegs rest

/-- Node's normalization of an absolute POSIX path: the real file a raw path
string denotes. Distinct raw paths alias the same file exactly when their
normalizations agree. -/
def normalizePath (p : String) : String :=
  "/" ++ joinSegs (normSegs (splitSlash p.data []) [])

/-- Result object of visualRegression / updateBaseline. The JavaScript results
are heterogeneous object literals; a field that a given return site does not
mention is modelled as none. -/
structure VRResult where
  success : Bool := true
  status : Option String := none
  message : Option String := none
  baseline : Option String := none
  current : Option String := none
  diff : Option String := none
  diffPercentage : Option ℚ := none
  threshold : Option ℚ := none
  sizeDiff : Option String := none

/-- Math.round: round half toward positive infinity. -/
def jsRound (q : ℚ) : ℤ := ⌊q + 1/2⌋

/-- Math.round(q * 100) / 100, the two-decimal rounding applied to the
reported diffPercentage. -/
def roundTo2 (q : ℚ) : ℚ := (jsRound (q * 100) : ℚ) / 100

/-- Two-digit zero padding used by decimal formatting. -/
def pad2 (n : ℕ) : String := if n < 10 then "0" ++ toString n else toString n

/-- Number.prototype.toFixed(2) for the nonnegative finite values produced
here: round to the nearest hundredth (ties away from zero) and print with
exactly two decimals. -/
def toFixed2 (q : ℚ) : String :=
  let n := (jsRound (q * 100)).toNat
  toString (n / 100) ++ "." ++ pad2 (n % 100)

/-- Loop body count of `for (let i = 0; i < sampleSize; i += 4)`: the number
of iterations executed. -/
def loopIters (sampleSize : ℕ) : ℕ := (sampleSize + 3) / 4

/-- The sampling loop: iteration k draws index rng k (the floor of
Math.random() times the shorter buffer length) and counts a difference when
the two buffers disagree there; out-of-range indexing yields undefined,
modelled by Option. -/
def countDiffs (b c : Bytes) (rng : ℕ → ℕ) : ℕ → ℕ
  | 0 => 0
  | k + 1 =>
    countDiffs b c rng k + (if b.get? (rng k) ≠ c.get? (rng k) then 1 else 0)

/-- sampleSize = Math.min(baseline.length, current.length, 10000). -/
def sampleSizeOf (b c : Bytes) : ℕ := min (min b.length c.length) 10000

/-- pixelDiffs accumulated over the whole sampling loop. -/
def pixelDiffsOf (b c : Bytes) (rng : ℕ → ℕ) : ℕ :=
  countDiffs b c rng (loopIters (sampleSizeOf b c))

/-- diffPercentage = (pixelDiffs / (sampleSize / 4)) * 100 (unrounded).
When the sample size is 0 (an empty buffer reaching estimation) the source
computes (0 / (0 / 4)) * 100 = NaN, which rationals cannot represent:
rational division by zero yields 0 instead, so statements about this value
carry weight only under a positive sample size, as in their hypotheses. -/
def diffPercentageOf (b c : Bytes) (rng : ℕ → ℕ) : ℚ :=
  ((pixelDiffsOf b c rng : ℚ) / ((sampleSizeOf b c : ℚ) / 4)) * 100

/-- sizeDiff = Math.abs(baseline.length - current.length) / baseline.length. -/
def sizeDiffOf (b c : Bytes) : ℚ :=
  |(b.length : ℚ) - (c.length : ℚ)| / (b.length : ℚ)

/-- Embedding of visualRegression({name, viewport, threshold}).
Inputs beyond the source arguments: the pre-state file system, the captured
screenshot bytes, the random index stream, and the two timestamp() results
(ts1 for the current path, ts2 for the diff path).
The unused `const comparison = await page.screenshot(...)` of the source has
no observable effect (no path argument) and is omitted. -/
def visualRegression (name viewport : String) (threshold : ℚ) (fs : FS)
    (current : Bytes) (rng : ℕ → ℕ) (ts1 ts2 : String) : VRResult × FS :=
  let baselinePath := baselinePathOf name viewport
  let currentPath := currentPathOf name viewport ts1
  let fs1 := writeFile fs currentPath current
  if (fs1 baselinePath).isNone then
    ({ success := true
       status := some "baseline_created"
       baseline := some baselinePath
       message := some "No baseline existed. Current screenshot saved as baseline." },
     writeFile fs1 baselinePath (readFile fs1 currentPath))
  else
    let baselineBuffer := readFile fs1 baselinePath
    let currentBuffer := readFile fs1 currentPath
    if baselineBuffer = currentBuffer then
      ({ success := true
         status := some "identical"
         message := some "Screenshots are identical" },
       unlinkFile fs1 currentPath)
    else
      let sizeDiff := sizeDiffOf baselineBuffer currentBuffer
      let diffPercentage := diffPercentageOf baselineBuffer currentBuffer rng
      let diffPath := diffPathOf name viewport ts2
      ({ success := true
         status := some (if diffPercentage ≤ threshold then "passed" else "failed")
         diffPercentage := some (roundTo2 diffPercentage)
         threshold := some threshold
         baseline := some baselinePath
         current := some currentPath
         diff := some diffPath
         sizeDiff := some (toFixed2 (sizeDiff * 100) ++ "%") },
     fs1)

/-- Embedding of updateBaseline({name, viewport}): screenshot directly onto
the baseline path, unconditionally overwriting it. -/
def updateBaseline (name viewport : String) (fs : FS) (snap : Bytes) :
    VRResult × FS :=
  let baselinePath := baselinePathOf name viewport
  ({ success := true
     baseline := some baselinePath
     message := some "Baseline updated" },
   writeFile fs baselinePath snap)

lemma baselinePath_c49 (n v : String) : (baselinePathOf n v).data.get? 49 = some 'b' := by
  show ((BASELINES_DIR ++ "/") ++ ("baseline_" ++ n ++ "_" ++ v ++ ".png")).data.get? 49 = some 'b'
  rw [String.data_append, List.get?_append (by decide)]
  decide

lemma currentPath_c49 (n v ts : String) : (currentPathOf n v ts).data.get? 49 = some 'd' := by
  show ((DIFFS_DIR ++ "/") ++ ("current_" ++ n ++ "_" ++ v ++ "_" ++ ts ++ ".png")).data.get? 49 = some 'd'
  rw [String.data_append, List.get?_append (by decide)]
  decide

lemma diffPath_c49 (n v ts : String) : (diffPathOf n v ts).data.get? 49 = some 'd' := by
  show ((DIFFS_DIR ++ "/") ++ ("diff_" ++ n ++ "_" ++ v ++ "_" ++ ts ++ ".png")).data.get? 49 = some 'd'
  rw [String.data_append, List.get?_append (by decide)]
  decide

lemma currentPath_c55 (n v ts : String) : (currentPathOf n v ts).data.get? 55 = some 'c' := by
  show ((DIFFS_DIR ++ "/") ++ (("current_" ++ n) ++ "_" ++ v ++ "_" ++ ts ++ ".png")).data.get? 55 = some 'c'
  rw [String.data_append]
  rw [show (("current_" ++ n) ++ "_" ++ v ++ "_" ++ ts ++ ".png").data
      = "current_".data ++ (n ++ "_" ++ v ++ "_" ++ ts ++ ".png").data from by
    simp [String.data_append]]
  rw [List.get?_append_right (by decide), List.get?_append (by decide)]
  decide

lemma diffPath_c55 (n v ts : String) : (diffPathOf n v ts).data.get? 55 = some 'd' := by
  show ((DIFFS_DIR ++ "/") ++ (("diff_" ++ n) ++ "_" ++ v ++ "_" ++ ts ++ ".png")).data.get? 55 = some 'd'
  rw [String.data_append]
  rw [show (("diff_" ++ n) ++ "_" ++ v ++ "_" ++ ts ++ ".png").data
      = "diff_".data ++ (n ++ "_" ++ v ++ "_" ++ ts ++ ".png").data from by
    simp [String.data_append]]
  rw [List.get?_append_right (by decide), List.get?_append (by decide)]
  decide

/-- The baseline path and a current-snapshot path never coincide, whatever the
names, viewports and timestamps: they live in different directories. -/
lemma baseline_ne_current (n v n2 v2 ts : String) :
    baselinePathOf n v ≠ currentPathOf n2 v2 ts := by
  intro h
  have h1 := baselinePath_c49 n v
  rw [h, currentPath_c49] at h1
  exact absurd h1 (by decide)

/-- The baseline path and a diff path never coincide. -/
lemma baseline_ne_diff (n v n2 v2 ts : String) :
    baselinePathOf n v ≠ diffPathOf n2 v2 ts := by
  intro h
  have h1 := baselinePath_c49 n v
  rw [h, diffPath_c49] at h1
  exact absurd h1 (by decide)

/-- A diff path and a current-snapshot path never coincide: the file-name
parts start with different characters. -/
lemma diff_ne_current (n v ts n2 v2 ts2 : String) :
    diffPathOf n v ts ≠ currentPathOf n2 v2 ts2 := by
  intro h
  have h1 := diffPath_c55 n v ts
  rw [h, currentPath_c55] at h1
  exact absurd h1 (by decide)

lemma writeFile_same (fs : FS) (p : String) (b : Bytes) : writeFile fs p b p = some b := by
  simp [writeFile]

lemma writeFile_other (fs : FS) (p : String) (b : Bytes) (q : String) (h : q ≠ p) :
    writeFile fs p b q = fs q := by
  simp [writeFile, h]

lemma unlinkFile_other (fs : FS) (p q : String) (h : q ≠ p) :
    unlinkFile fs p q = fs q := by
  simp [unlinkFile, h]

/-- Branch equation: no baseline on disk. -/
lemma vr_eq_created (n v ts1 ts2 : String) (t : ℚ) (fs : FS) (cur : Bytes) (rng : ℕ → ℕ)
    (hb : fs (baselinePathOf n v) = none) :
    visualRegression n v t fs cur rng ts1 ts2 =
      ({ success := true
         status := some "baseline_created"
         baseline := some (baselinePathOf n v)
         message := some "No baseline existed. Current screenshot saved as baseline." },
       writeFile (writeFile fs (currentPathOf n v ts1) cur) (baselinePathOf n v) cur) := by
  simp [visualRegression, readFile, writeFile, baseline_ne_current n v n v ts1, hb]

/-- Branch equation: baseline on disk with exactly the captured bytes. -/
lemma vr_eq_identical (n v ts1 ts2 : String) (t : ℚ) (fs : FS) (cur : Bytes) (rng : ℕ → ℕ)
    (hb : fs (baselinePathOf n v) = some cur) :
    visualRegression n v t fs cur rng ts1 ts2 =
      ({ success := true
         status := some "identical"
         message := some "Screenshots are identical" },
       unlinkFile (writeFile fs (currentPathOf n v ts1) cur) (currentPathOf n v ts1)) := by
  simp [visualRegression, readFile, writeFile, baseline_ne_current n v n v ts1, hb]

/-- Branch equation: baseline on disk with bytes different from the capture. -/
lemma vr_eq_compare (n v ts1 ts2 : String) (t : ℚ) (fs : FS) (b cur : Bytes) (rng : ℕ → ℕ)
    (hb : fs (baselinePathOf n v) = some b) (hne : b ≠ cur) :
    visualRegression n v t fs cur rng ts1 ts2 =
      ({ success := true
         status := some (if diffPercentageOf b cur rng ≤ t then "passed" else "failed")
         diffPercentage := some (roundTo2 (diffPercentageOf b cur rng))
         threshold := some t
         baseline := some (baselinePathOf n v)
         current := some (currentPathOf n v ts1)
         diff := some (diffPathOf n v ts2)
         sizeDiff := some (toFixed2 (sizeDiffOf b cur * 100) ++ "%") },
       writeFile fs (currentPathOf n v ts1) cur) := by
  simp [visualRegression, readFile, writeFile, baseline_ne_current n v n v ts1, hb, hne]

/-- C1: when a baseline exists and its bytes differ from the captured
snapshot, the verdict is passed exactly when the computed (unrounded)
diffPercentage is at most the caller-supplied threshold, and failed
otherwise; hence for the fixed computed percentage the verdict is passed for
every threshold above or equal to it and failed for every threshold below
it. -/
theorem vr_threshold_verdict (n v ts1 ts2 : String) (fs : FS) (b cur : Bytes)
    (rng : ℕ → ℕ) (hb : fs (baselinePathOf n v) = some b) (hne : b ≠ cur) :
    (∀ t : ℚ, ((visualRegression n v t fs cur rng ts1 ts2).1.status = some "passed"
        ↔ diffPercentageOf b cur rng ≤ t)
      ∧ ((visualRegression n v t fs cur rng ts1 ts2).1.status = some "failed"
        ↔ ¬ diffPercentageOf b cur rng ≤ t))
    ∧ (∀ t : ℚ, diffPercentageOf b cur rng ≤ t →
        (visualRegression n v t fs cur rng ts1 ts2).1.status = some "passed")
    ∧ (∀ t : ℚ, t < diffPercentageOf b cur rng →
        (visualRegression n v t fs cur rng ts1 ts2).1.status = some "failed") := by
  have key : ∀ t : ℚ, (visualRegression n v t fs cur rng ts1 ts2).1.status
      = some (if diffPercentageOf b cur rng ≤ t then "passed" else "failed") := by
    intro t
    rw [vr_eq_compare n v ts1 ts2 t fs b cur rng hb hne]
  refine ⟨fun t => ⟨?_, ?_⟩, fun t h => ?_, fun t h => ?_⟩ <;> rw [key]
  · by_cases hle : diffPercentageOf b cur rng ≤ t <;> simp [hle]
  · by_cases hle : diffPercentageOf b cur rng ≤ t <;> simp [hle]
  · simp [h]
  · simp [not_le.mpr h]

/-- Initial file system used by concrete witnesses: a single stored baseline
with byte payload [0] under the (home, desktop) key. -/
def fsW1 : FS := writeFile (fun _ => none) (baselinePathOf "home" "desktop") [0]

theorem vr_threshold_verdict_witness :
    (visualRegression "home" "desktop" (1/10) fsW1 [1] (fun _ => 0) "T1" "T2").1.status
      = some "failed" :=
  (vr_threshold_verdict "home" "desktop" "T1" "T2" fsW1 [0] [1] (fun _ => 0)
      (writeFile_same _ _ _) (by decide)).2.2 (1/10) (by
    have h1 : pixelDiffsOf [0] [1] (fun _ => 0) = 1 := rfl
    have h2 : sampleSizeOf [0] [1] = 1 := rfl
    rw [diffPercentageOf, h1, h2]
    norm_num)

/-- C3: with no baseline stored for the key, the run returns
baseline_created, persists the captured bytes as the new baseline (so a
subsequent lookup returns exactly those bytes), and produces none of the
comparison fields. -/
theorem vr_baseline_created (n v ts1 ts2 : String) (t : ℚ) (fs : FS) (cur : Bytes)
    (rng : ℕ → ℕ) (hb : fs (baselinePathOf n v) = none) :
    (visualRegression n v t fs cur rng ts1 ts2).1.status = some "baseline_created"
    ∧ (visualRegression n v t fs cur rng ts1 ts2).1.success = true
    ∧ (visualRegression n v t fs cur rng ts1 ts2).2 (baselinePathOf n v) = some cur
    ∧ (visualRegression n v t fs cur rng ts1 ts2).1.diffPercentage = none
    ∧ (visualRegression n v t fs cur rng ts1 ts2).1.diff = none
    ∧ (visualRegression n v t fs cur rng ts1 ts2).1.sizeDiff = none
    ∧ (visualRegression n v t fs cur rng ts1 ts2).1.threshold = none := by
  rw [vr_eq_created n v ts1 ts2 t fs cur rng hb]
  exact ⟨rfl, rfl, writeFile_same _ _ _, rfl, rfl, rfl, rfl⟩

theorem vr_baseline_created_witness :
    (visualRegression "home" "desktop" (1/10) (fun _ => none) [5] (fun _ => 0) "T1" "T2").2
      (baselinePathOf "home" "desktop") = some [5] :=
  (vr_baseline_created "home" "desktop" "T1" "T2" (1/10) (fun _ => none) [5]
      (fun _ => 0) rfl).2.2.1

/-- C6: a run against an existing baseline leaves that baseline file exactly
as it was, whichever verdict (identical, passed or failed) results. -/
theorem vr_preserves_existing_baseline (n v ts1 ts2 : String) (t : ℚ) (fs : FS)
    (b cur : Bytes) (rng : ℕ → ℕ) (hb : fs (baselinePathOf n v) = some b) :
    (visualRegression n v t fs cur rng ts1 ts2).2 (baselinePathOf n v) = some b := by
  by_cases hc : b = cur
  · subst hc
    rw [vr_eq_identical n v ts1 ts2 t fs b rng hb]
    dsimp only
    rw [unlinkFile_other _ _ _ (baseline_ne_current n v n v ts1),
      writeFile_other _ _ _ _ (baseline_ne_current n v n v ts1)]
    exact hb
  · rw [vr_eq_compare n v ts1 ts2 t fs b cur rng hb hc]
    dsimp only
    rw [writeFile_other _ _ _ _ (baseline_ne_current n v n v ts1)]
    exact hb

theorem vr_preserves_existing_baseline_witness :
    (visualRegression "home" "desktop" (1/10) fsW1 [0] (fun _ => 0) "T1" "T2").2
      (baselinePathOf "home" "desktop") = some [0] :=
  vr_preserves_existing_baseline "home" "desktop" "T1" "T2" (1/10) fsW1 [0] [0]
    (fun _ => 0) (writeFile_same _ _ _)

/-- C7: updateBaseline unconditionally overwrites the deterministically
computed baseline path with the newly captured snapshot; afterwards a lookup
returns the new snapshot and no longer the previously stored one. -/
theorem updateBaseline_overwrites (n v : String) (fs : FS) (old snap : Bytes)
    (_hold : fs (baselinePathOf n v) = some old) (hne : old ≠ snap) :
    (updateBaseline n v fs snap).2 (baselinePathOf n v) = some snap
    ∧ (updateBaseline n v fs snap).2 (baselinePathOf n v) ≠ some old
    ∧ (updateBaseline n v fs snap).1.baseline = some (baselinePathOf n v) := by
  have h1 : (updateBaseline n v fs snap).2 (baselinePathOf n v) = some snap :=
    writeFile_same _ _ _
  refine ⟨h1, ?_, rfl⟩
  rw [h1]
  intro h
  injection h with h2
  exact hne h2.symm

theorem updateBaseline_overwrites_witness :
    (updateBaseline "home" "desktop" fsW1 [1]).2 (baselinePathOf "home" "desktop") = some [1]
    ∧ (updateBaseline "home" "desktop" fsW1 [1]).2 (baselinePathOf "home" "desktop") ≠ some [0] :=
  ⟨(updateBaseline_overwrites "home" "desktop" fsW1 [0] [1]
      (writeFile_same _ _ _) (by decide)).1,
   (updateBaseline_overwrites "home" "desktop" fsW1 [0] [1]
      (writeFile_same _ _ _) (by decide)).2.1⟩

/-- Initial file system for the C10 counterexample: a baseline stored under
a traversal-containing name. -/
def fsX : FS := writeFile (fun _ => none) (baselinePathOf "q/../../diffs/r" "desktop") [0]

/-- C10 counterexample: with the traversal-containing name q/../../diffs/r
and equal timestamps (timestamp() has one-second resolution, so the two
calls routinely agree), the returned diff path and the current-snapshot path
are different raw strings but normalize to the same real file; the run
writes the captured screenshot at that file and still returns it in the diff
field, so after the call a file does exist at the returned diff path. -/
theorem vr_diff_path_aliases_current_cex :
    normalizePath (diffPathOf "q/../../diffs/r" "desktop" "T1")
      = normalizePath (currentPathOf "q/../../diffs/r" "desktop" "T1")
    ∧ diffPathOf "q/../../diffs/r" "desktop" "T1"
      ≠ currentPathOf "q/../../diffs/r" "desktop" "T1"
    ∧ (visualRegression "q/../../diffs/r" "desktop" (1/10) fsX [1]
        (fun _ => 0) "T1" "T1").1.diff
      = some (diffPathOf "q/../../diffs/r" "desktop" "T1")
    ∧ (visualRegression "q/../../diffs/r" "desktop" (1/10) fsX [1]
        (fun _ => 0) "T1" "T1").2 (currentPathOf "q/../../diffs/r" "desktop" "T1")
      = some [1] := by
  have hcmp := vr_eq_compare "q/../../diffs/r" "desktop" "T1" "T1" (1/10) fsX [0] [1]
    (fun _ => 0) (writeFile_same _ _ _) (by decide)
  refine ⟨by decide, by decide, by rw [hcmp], ?_⟩
  rw [hcmp]
  dsimp only
  exact writeFile_same _ _ _

/-- C10 (amended): a passed or failed result names a timestamped diff path
in the diffs directory, and the operation writes nothing at it provided that
path does not alias the current-snapshot path under Node path normalization:
then, if no file existed at the diff path before the call, none exists after
it either. The two raw path strings always differ, but a name containing
traversal segments together with equal second-resolution timestamps can make
them resolve to the same real file, which then does hold the screenshot. -/
theorem vr_diff_path_never_written (n v ts1 ts2 : String) (t : ℚ) (fs : FS)
    (b cur : Bytes) (rng : ℕ → ℕ) (hb : fs (baselinePathOf n v) = some b)
    (hne : b ≠ cur) (hd : fs (diffPathOf n v ts2) = none)
    (_halias : normalizePath (diffPathOf n v ts2) ≠ normalizePath (currentPathOf n v ts1)) :
    (visualRegression n v t fs cur rng ts1 ts2).1.diff = some (diffPathOf n v ts2)
    ∧ (visualRegression n v t fs cur rng ts1 ts2).2 (diffPathOf n v ts2) = none := by
  rw [vr_eq_compare n v ts1 ts2 t fs b cur rng hb hne]
  refine ⟨rfl, ?_⟩
  dsimp only
  rw [writeFile_other _ _ _ _ (diff_ne_current n v ts2 n v ts1)]
  exact hd

theorem vr_diff_path_never_written_witness :
    (visualRegression "home" "desktop" (1/10) fsW1 [1] (fun _ => 0) "T1" "T2").1.diff
      = some (diffPathOf "home" "desktop" "T2")
    ∧ (visualRegression "home" "desktop" (1/10) fsW1 [1] (fun _ => 0) "T1" "T2").2
      (diffPathOf "home" "desktop" "T2") = none :=
  vr_diff_path_never_written "home" "desktop" "T1" "T2" (1/10) fsW1 [0] [1]
    (fun _ => 0) (writeFile_same _ _ _) (by decide) (by decide) (by decide)

/-- C2 counterexample: on a byte-identical rerun the result has status
identical but carries no diffPercentage field at all, so it does not satisfy
diffPercentage = 0 as the claim states. -/
theorem vr_identical_no_diffPercentage_cex :
    (visualRegression "home" "desktop" (1/10) fsW1 [0] (fun _ => 0) "T1" "T2").1.status
      = some "identical"
    ∧ ¬ (visualRegression "home" "desktop" (1/10) fsW1 [0] (fun _ => 0) "T1" "T2").1.diffPercentage
      = some 0 := by
  rw [vr_eq_identical "home" "desktop" "T1" "T2" (1/10) fsW1 [0] (fun _ => 0)
    (writeFile_same _ _ _)]
  exact ⟨rfl, by simp⟩

/-- C2 (amended): when the stored baseline bytes equal the captured bytes,
the run returns status identical, performs no pixel-level work (no
diffPercentage, diff or sizeDiff field is produced), and deletes the freshly
captured current snapshot; the result carries no diffPercentage field rather
than an explicit diffPercentage = 0. -/
theorem vr_identical_result (n v ts1 ts2 : String) (t : ℚ) (fs : FS) (cur : Bytes)
    (rng : ℕ → ℕ) (hb : fs (baselinePathOf n v) = some cur) :
    (visualRegression n v t fs cur rng ts1 ts2).1.status = some "identical"
    ∧ (visualRegression n v t fs cur rng ts1 ts2).1.diffPercentage = none
    ∧ (visualRegression n v t fs cur rng ts1 ts2).1.diff = none
    ∧ (visualRegression n v t fs cur rng ts1 ts2).1.sizeDiff = none
    ∧ (visualRegression n v t fs cur rng ts1 ts2).2 (currentPathOf n v ts1) = none := by
  rw [vr_eq_identical n v ts1 ts2 t fs cur rng hb]
  refine ⟨rfl, rfl, rfl, rfl, ?_⟩
  dsimp only
  simp [unlinkFile]

theorem vr_identical_result_witness :
    (visualRegression "home" "desktop" (1/10) fsW1 [0] (fun k => k) "T1" "T2").1.status
      = some "identical"
    ∧ (visualRegression "home" "desktop" (1/10) fsW1 [0] (fun k => k) "T1" "T2").1.diffPercentage
      = none :=
  ⟨(vr_identical_result "home" "desktop" "T1" "T2" (1/10) fsW1 [0] (fun k => k)
      (writeFile_same _ _ _)).1,
   (vr_identical_result "home" "desktop" "T1" "T2" (1/10) fsW1 [0] (fun k => k)
      (writeFile_same _ _ _)).2.1⟩

/-- Initial file system for the C5 counterexample: a five-byte baseline. -/
def fsC5 : FS := writeFile (fun _ => none) (baselinePathOf "home" "desktop") [0, 0, 0, 0, 0]

/-- C5 counterexample: with five-byte buffers differing everywhere and an
index stream hitting a differing byte in both loop iterations, the computed
diffPercentage is 160, outside [0, 100], and 160 is also the reported
diffPercentage field of the failed comparison. -/
theorem vr_diffPercentage_over_100_cex :
    diffPercentageOf [0, 0, 0, 0, 0] [1, 1, 1, 1, 1] (fun _ => 0) = 160
    ∧ (visualRegression "home" "desktop" (1/10) fsC5 [1, 1, 1, 1, 1]
        (fun _ => 0) "T1" "T2").1.diffPercentage = some 160
    ∧ ¬ ((160 : ℚ) ≤ 100) := by
  have h1 : pixelDiffsOf [0, 0, 0, 0, 0] [1, 1, 1, 1, 1] (fun _ => 0) = 2 := rfl
  have hd : diffPercentageOf [0, 0, 0, 0, 0] [1, 1, 1, 1, 1] (fun _ => 0) = 160 := by
    have h2 : sampleSizeOf [0, 0, 0, 0, 0] [1, 1, 1, 1, 1] = 5 := rfl
    rw [diffPercentageOf, h1, h2]
    norm_num
  refine ⟨hd, ?_, by norm_num⟩
  rw [vr_eq_compare "home" "desktop" "T1" "T2" (1/10) fsC5 [0, 0, 0, 0, 0]
    [1, 1, 1, 1, 1] (fun _ => 0) (writeFile_same _ _ _) (by decide)]
  dsimp only
  rw [hd]
  norm_num [roundTo2, jsRound]

lemma countDiffs_le (b c : Bytes) (rng : ℕ → ℕ) : ∀ k, countDiffs b c rng k ≤ k := by
  intro k
  induction k with
  | zero => exact le_refl 0
  | succ n ih =>
    simp only [countDiffs]
    split <;> omega

/-- C5 (amended): whenever the sample size (the minimum of the two buffer
lengths and 10000) is positive and divisible by 4 — in particular whenever
both buffers hold at least 10000 bytes — the computed diffPercentage lies in
[0, 100]. For sample sizes not divisible by 4 the final partial loop
iteration can push it above 100, and at sample size 0 the source computes
0/0 = NaN, a case the positivity hypothesis excludes. -/
theorem vr_diffPercentage_range (b c : Bytes) (rng : ℕ → ℕ)
    (hpos : 0 < sampleSizeOf b c) (hdvd : 4 ∣ sampleSizeOf b c) :
    0 ≤ diffPercentageOf b c rng ∧ diffPercentageOf b c rng ≤ 100 := by
  obtain ⟨m, hm⟩ := hdvd
  have hmpos : 0 < m := by omega
  have hpd : pixelDiffsOf b c rng ≤ m := by
    have h1 : loopIters (sampleSizeOf b c) = m := by
      rw [hm, loopIters, Nat.add_comm, Nat.add_mul_div_left _ _ (by norm_num : 0 < 4)]
      norm_num
    rw [pixelDiffsOf, h1]
    exact countDiffs_le b c rng m
  have hmq : ((sampleSizeOf b c : ℚ)) / 4 = (m : ℚ) := by
    rw [hm]
    push_cast
    ring
  have hpdq : ((pixelDiffsOf b c rng : ℚ)) ≤ (m : ℚ) := by
    exact_mod_cast hpd
  rw [diffPercentageOf, hmq]
  constructor
  · positivity
  · rw [div_mul_eq_mul_div, div_le_iff (by exact_mod_cast hmpos)]
    nlinarith [hpdq]

theorem vr_diffPercentage_range_witness :
    0 ≤ diffPercentageOf [0, 0, 0, 0] [1, 1, 1, 1] (fun _ => 0)
    ∧ diffPercentageOf [0, 0, 0, 0] [1, 1, 1, 1] (fun _ => 0) ≤ 100 :=
  vr_diffPercentage_range [0, 0, 0, 0] [1, 1, 1, 1] (fun _ => 0) (by decide) (by decide)

/-- Baseline bytes for the C9 scenario: length 3900, first byte 1. -/
def bC9 : Bytes := 1 :: 0 :: List.replicate 3898 0

/-- Captured bytes for the C9 scenario: length 3900, first byte 2. -/
def cC9 : Bytes := 2 :: 0 :: List.replicate 3898 0

/-- Index stream for the C9 scenario: the first loop iteration samples the
(differing) byte 0, every later iteration samples the (equal) byte 1. -/
def rngC9 : ℕ → ℕ := fun k => if k = 0 then 0 else 1

/-- Initial file system for the C9 scenario. -/
def fsC9 : FS := writeFile (fun _ => none) (baselinePathOf "home" "desktop") bC9

lemma countDiffs_C9 : ∀ k, countDiffs bC9 cC9 rngC9 (k + 1) = 1 := by
  intro k
  induction k with
  | zero => decide
  | succ j ih =>
    have hr : rngC9 (j + 1) = 1 := by simp [rngC9]
    have hj : bC9.get? (rngC9 (j + 1)) = cC9.get? (rngC9 (j + 1)) := by
      rw [hr]
      rfl
    rw [countDiffs, ih, hj]
    simp

set_option maxRecDepth 2000 in
/-- C9: the verdict is computed from the unrounded diffPercentage while the
reported field is rounded to two decimals: here the computed difference is
4/39 (about 0.1026), above the threshold 0.1, so the status is failed, yet
the reported diffPercentage field rounds down to exactly 0.1, equal to the
reported threshold. -/
theorem vr_rounding_verdict_mismatch :
    diffPercentageOf bC9 cC9 rngC9 = 4/39
    ∧ ¬ ((4 : ℚ)/39 ≤ 1/10)
    ∧ (visualRegression "home" "desktop" (1/10) fsC9 cC9 rngC9 "T1" "T2").1.status
        = some "failed"
    ∧ (visualRegression "home" "desktop" (1/10) fsC9 cC9 rngC9 "T1" "T2").1.diffPercentage
        = some (1/10)
    ∧ (visualRegression "home" "desktop" (1/10) fsC9 cC9 rngC9 "T1" "T2").1.threshold
        = some (1/10) := by
  have hlb : bC9.length = 3900 := by
    rw [bC9, List.length_cons, List.length_cons, List.length_replicate]
  have hlc : cC9.length = 3900 := by
    rw [cC9, List.length_cons, List.length_cons, List.length_replicate]
  have h2 : sampleSizeOf bC9 cC9 = 3900 := by
    rw [sampleSizeOf, hlb, hlc]
    omega
  have h1 : pixelDiffsOf bC9 cC9 rngC9 = 1 := by
    rw [pixelDiffsOf, h2, show loopIters 3900 = 974 + 1 from by norm_num [loopIters]]
    exact countDiffs_C9 974
  have hd : diffPercentageOf bC9 cC9 rngC9 = 4/39 := by
    rw [diffPercentageOf, h1, h2]
    norm_num
  have hlt : ¬ ((4 : ℚ)/39 ≤ 1/10) := by norm_num
  have hne : bC9 ≠ cC9 := by
    intro h
    exact absurd (congrArg (fun l => l.get? 0) h) (by decide)
  have hcmp := vr_eq_compare "home" "desktop" "T1" "T2" (1/10) fsC9 bC9 cC9 rngC9
    (writeFile_same _ _ _) hne
  refine ⟨hd, hlt, ?_, ?_, by rw [hcmp]⟩
  · rw [hcmp]
    dsimp only
    rw [hd, if_neg hlt]
  · rw [hcmp]
    dsimp only
    rw [hd]
    norm_num [roundTo2, jsRound]

/-- Baseline bytes for the C8 counterexample: length 20001. -/
def bC8 : Bytes := 1 :: List.replicate 20000 0

/-- Captured bytes for the C8 counterexample: length 20002. -/
def cC8 : Bytes := 2 :: List.replicate 20001 0

/-- Initial file system for the C8 counterexample. -/
def fsC8 : FS := writeFile (fun _ => none) (baselinePathOf "home" "desktop") bC8

/-- C8 counterexample: the two buffer lengths differ (20001 versus 20002)
and the true relative size delta 1/20001 is non-zero, yet the comparison
result exposes the sizeDiff field as the string "0.00%": the two-decimal
percentage formatting silently rounds the mismatch away, and the exposed
value is a percentage string rather than the bare ratio. -/
theorem vr_sizeDiff_displays_zero_cex :
    bC8.length ≠ cC8.length
    ∧ sizeDiffOf bC8 cC8 ≠ 0
    ∧ (visualRegression "home" "desktop" (1/10) fsC8 cC8 (fun _ => 0) "T1" "T2").1.sizeDiff
        = some "0.00%" := by
  have hlb : bC8.length = 20001 := by
    rw [bC8, List.length_cons, List.length_replicate]
  have hlc : cC8.length = 20002 := by
    rw [cC8, List.length_cons, List.length_replicate]
  have hsz : sizeDiffOf bC8 cC8 = 1/20001 := by
    rw [sizeDiffOf, hlb, hlc]
    norm_num
  have hne : bC8 ≠ cC8 := by
    intro h
    exact absurd (congrArg (fun l => l.get? 0) h) (by decide)
  refine ⟨by rw [hlb, hlc]; norm_num, by rw [hsz]; norm_num, ?_⟩
  rw [vr_eq_compare "home" "desktop" "T1" "T2" (1/10) fsC8 bC8 cC8 (fun _ => 0)
    (writeFile_same _ _ _) hne]
  dsimp only
  rw [hsz]
  have hfl : jsRound ((1 : ℚ)/20001 * 100 * 100) = 0 := by
    rw [jsRound]
    rw [Int.floor_eq_zero_iff]
    constructor <;> norm_num
  have hts : toFixed2 ((1 : ℚ)/20001 * 100) = "0.00" := by
    simp only [toFixed2, hfl]
    decide
  rw [hts]
  rfl

/-- C8 (amended): a passed or failed comparison exposes sizeDiff as the
two-decimal percentage string of the relative size delta
(Math.abs(lenB - lenC) / lenB, times 100, through toFixed(2), with a percent
sign); whenever that relative delta is at least 1/20000 — that is, at least
0.005 percent — the rounded percentage is at least 0.01 and so the displayed
value is non-zero. Deltas below 1/20000 can display as "0.00%". -/
theorem vr_sizeDiff_reported (n v ts1 ts2 : String) (t : ℚ) (fs : FS)
    (b cur : Bytes) (rng : ℕ → ℕ) (hb : fs (baselinePathOf n v) = some b)
    (hne : b ≠ cur) (hq : 1/20000 ≤ sizeDiffOf b cur) :
    (visualRegression n v t fs cur rng ts1 ts2).1.sizeDiff
      = some (toFixed2 (sizeDiffOf b cur * 100) ++ "%")
    ∧ 1 ≤ jsRound (sizeDiffOf b cur * 100 * 100) := by
  refine ⟨by rw [vr_eq_compare n v ts1 ts2 t fs b cur rng hb hne], ?_⟩
  rw [jsRound]
  rw [show (1 : ℤ) = ((1 : ℤ)) from rfl]
  refine Int.le_floor.mpr ?_
  push_cast
  nlinarith [hq]

theorem vr_sizeDiff_reported_witness :
    (visualRegression "home" "desktop" (1/10) fsW1 [1, 1] (fun _ => 0) "T1" "T2").1.sizeDiff
      = some (toFixed2 (sizeDiffOf [0] [1, 1] * 100) ++ "%")
    ∧ 1 ≤ jsRound (sizeDiffOf [0] [1, 1] * 100 * 100) :=
  vr_sizeDiff_reported "home" "desktop" "T1" "T2" (1/10) fsW1 [0] [1, 1] (fun _ => 0)
    (writeFile_same _ _ _) (by decide) (by
      rw [sizeDiffOf]
      norm_num)

/-- JavaScript value as produced by JSON.parse and returned by tools. -/
inductive JsValue where
  | null
  | bool (b : Bool)
  | num (q : ℚ)
  | str (s : String)
  | arr (elems : List JsValue)
  | obj (fields : List (String × JsValue))

/-- JSON whitespace characters. -/
def jsonWs (c : Char) : Bool := c = ' ' || c = '\t' || c = '\n' || c = '\r'

/-- Drop leading JSON whitespace. -/
def skipWs : List Char → List Char
  | [] => []
  | c :: cs => if jsonWs c then skipWs cs else c :: cs

/-- Value of a hexadecimal digit. -/
def hexVal (c : Char) : Option ℕ :=
  if '0' ≤ c ∧ c ≤ '9' then some (c.toNat - 48)
  else if 'a' ≤ c ∧ c ≤ 'f' then some (c.toNat - 87)
  else if 'A' ≤ c ∧ c ≤ 'F' then some (c.toNat - 55)
  else none

/-- Body of a JSON string after the opening quote: plain characters, the
standard escapes and 4-digit unicode escapes, until the closing quote. -/
def parseStringBody : ℕ → List Char → List Char → Option (String × List Char)
  | 0, _, _ => none
  | fuel + 1, cs, acc =>
    match cs with
    | [] => none
    | '"' :: rest => some (String.mk acc.reverse, rest)
    | '\\' :: rest =>
      match rest with
      | '"' :: r => parseStringBody fuel r ('"' :: acc)
      | '\\' :: r => parseStringBody fuel r ('\\' :: acc)
      | '/' :: r => parseStringBody fuel r ('/' :: acc)
      | 'b' :: r => parseStringBody fuel r ('\x08' :: acc)
      | 'f' :: r => parseStringBody fuel r ('\x0c' :: acc)
      | 'n' :: r => parseStringBody fuel r ('\n' :: acc)
      | 'r' :: r => parseStringBody fuel r ('\r' :: acc)
      | 't' :: r => parseStringBody fuel r ('\t' :: acc)
      | 'u' :: h1 :: h2 :: h3 :: h4 :: r =>
        match hexVal h1, hexVal h2, hexVal h3, hexVal h4 with
        | some a, some b2, some c2, some d2 =>
          parseStringBody fuel r (Char.ofNat (((a * 16 + b2) * 16 + c2) * 16 + d2) :: acc)
        | _, _, _, _ => none
      | _ => none
    | c :: rest => parseStringBody fuel rest (c :: acc)

/-- Longest leading run of decimal digits. -/
def spanDigits (cs : List Char) : List Char × List Char :=
  (cs.takeWhile Char.isDigit, cs.dropWhile Char.isDigit)

/-- Numeric value of a digit run. -/
def digitsVal (ds : List Char) : ℕ :=
  List.foldl (fun n c => n * 10 + (c.toNat - 48)) 0 ds

/-- Rational power of ten. -/
def tenPow (n : ℕ) : ℚ := (10 : ℚ) ^ n

/-- Exponent suffix of a JSON number applied to mantissa m. -/
def parseExp (m : ℚ) (r : List Char) : Option (ℚ × List Char) :=
  match (match r with
         | '+' :: s => (false, s)
         | '-' :: s => (true, s)
         | _ => (false, r)) with
  | (eneg, r1) =>
    match spanDigits r1 with
    | ([], _) => none
    | (es, rest) =>
      some ((if eneg then m / tenPow (digitsVal es) else m * tenPow (digitsVal es)), rest)

/-- JSON number: optional sign, integer part, optional fraction, optional
exponent (lenient about leading zeros, which strict JSON rejects). -/
def parseNumber (cs : List Char) : Option (ℚ × List Char) :=
  match (match cs with
         | '-' :: r => (true, r)
         | _ => (false, cs)) with
  | (neg, cs1) =>
    match spanDigits cs1 with
    | ([], _) => none
    | (ds, rest1) =>
      match (match rest1 with
             | '.' :: r =>
               match spanDigits r with
               | ([], _) => none
               | (fr, rest2) =>
                 some (((digitsVal ds : ℚ) + (digitsVal fr : ℚ) / tenPow fr.length), rest2)
             | _ => some ((digitsVal ds : ℚ), rest1)) with
      | none => none
      | some (m, rest2) =>
        match (match rest2 with
               | 'e' :: r => parseExp m r
               | 'E' :: r => parseExp m r
               | _ => some (m, rest2)) with
        | none => none
        | some (x, rest3) => some ((if neg then -x else x), rest3)

/-- Elements of a non-empty JSON array, given a parser pv for one value. -/
def parseListRest (pv : List Char → Option (JsValue × List Char)) :
    ℕ → List Char → List JsValue → Option (JsValue × List Char)
  | 0, _, _ => none
  | fuel + 1, cs, acc =>
    match pv cs with
    | none => none
    | some (v, rest) =>
      match skipWs rest with
      | ',' :: r2 => parseListRest pv fuel r2 (v :: acc)
      | ']' :: r2 => some (JsValue.arr (v :: acc).reverse, r2)
      | _ => none

/-- Members of a non-empty JSON object, given a parser pv for one value. -/
def parseObjRest (pv : List Char → Option (JsValue × List Char)) :
    ℕ → List Char → List (String × JsValue) → Option (JsValue × List Char)
  | 0, _, _ => none
  | fuel + 1, cs, acc =>
    match skipWs cs with
    | '"' :: rest =>
      match parseStringBody (rest.length + 1) rest [] with
      | none => none
      | some (k, r1) =>
        match skipWs r1 with
        | ':' :: r2 =>
          match pv r2 with
          | none => none
          | some (v, r3) =>
            match skipWs r3 with
            | ',' :: r4 => parseObjRest pv fuel r4 ((k, v) :: acc)
            | '}' :: r4 => some (JsValue.obj ((k, v) :: acc).reverse, r4)
            | _ => none
        | _ => none
    | _ => none

/-- One JSON value, with nested values handled by pv. -/
def parseValueBody (pv : List Char → Option (JsValue × List Char))
    (cs : List Char) : Option (JsValue × List Char) :=
  match skipWs cs with
  | 'n' :: 'u' :: 'l' :: 'l' :: rest => some (JsValue.null, rest)
  | 't' :: 'r' :: 'u' :: 'e' :: rest => some (JsValue.bool true, rest)
  | 'f' :: 'a' :: 'l' :: 's' :: 'e' :: rest => some (JsValue.bool false, rest)
  | '"' :: rest =>
    match parseStringBody (rest.length + 1) rest [] with
    | none => none
    | some (s, r) => some (JsValue.str s, r)
  | '[' :: rest =>
    match skipWs rest with
    | ']' :: r2 => some (JsValue.arr [], r2)
    | cs2 => parseListRest pv (cs2.length + 1) cs2 []
  | '{' :: rest =>
    match skipWs rest with
    | '}' :: r2 => some (JsValue.obj [], r2)
    | cs2 => parseObjRest pv (cs2.length + 1) cs2 []
  | cs2 =>
    match parseNumber cs2 with
    | none => none
    | some (q, r) => some (JsValue.num q, r)

/-- Fuelled JSON value grammar; each nesting level consumes one fuel unit. -/
def parseValueFuel : ℕ → List Char → Option (JsValue × List Char)
  | 0, _ => none
  | fuel + 1, cs => parseValueBody (parseValueFuel fuel) cs

/-- Model of the ECMAScript builtin JSON.parse: parse one value surrounded by
optional whitespace; a parse failure means the builtin throws a SyntaxError,
modelled as none. -/
def jsonParse (s : String) : Option JsValue :=
  match parseValueFuel (s.length + 1) s.data with
  | none => none
  | some (v, rest) => if (skipWs rest).isEmpty then some v else none

/-- Thrown JavaScript exception, as far as the embedding needs it: the
message string. -/
abbrev JsError := String

/-- Embedding of handleTool(name, args). The dispatch table is a parameter:
its entries are the tool implementations (browser-driving async functions
whose bodies are I/O and stay abstract here); an implementation either
returns a result object or throws. The catch branch serializes the thrown
message as an error object (the stack-trace excerpt the source adds next to
it is runtime metadata and is not modelled). -/
def handleTool (tools : List (String × (JsValue → Except JsError JsValue)))
    (name : String) (args : JsValue) : JsValue :=
  match tools.lookup name with
  | none =>
    JsValue.obj [("error", JsValue.str ("Unknown tool: " ++ name)),
                 ("available", JsValue.arr (tools.map fun p => JsValue.str p.1))]
  | some fn =>
    match fn args with
    | Except.ok r => r
    | Except.error msg => JsValue.obj [("error", JsValue.str msg)]

/-- What one CLI invocation prints: the help text or a tool result object. -/
inductive CliOutcome where
  | help
  | result (v : JsValue)

/-- Embedding of `const args = process.argv[3] ? JSON.parse(process.argv[3])
: \x7b\x7d`: an absent or empty (falsy) third argument yields the empty
object without parsing; any other string goes through JSON.parse, which
throws on invalid input (none). -/
def cliArgs (argv3 : Option String) : Option JsValue :=
  match argv3 with
  | none => some (JsValue.obj [])
  | some s => if s = "" then some (JsValue.obj []) else jsonParse s

/-- Message of the exception thrown by JSON.parse on invalid input (the
engine-specific SyntaxError text is not modelled further). -/
def jsonSyntaxError : JsError := "SyntaxError: JSON.parse"

/-- Embedding of the top-level CLI: parse the argument JSON (outside any
try/catch — a parse failure propagates as a thrown exception), then either
print help (no command, empty command, or the help command) or dispatch
through handleTool. -/
def cliMain (tools : List (String × (JsValue → Except JsError JsValue)))
    (argv2 argv3 : Option String) : Except JsError CliOutcome :=
  match cliArgs argv3 with
  | none => Except.error jsonSyntaxError
  | some args =>
    match argv2 with
    | none => Except.ok CliOutcome.help
    | some cmd =>
      if cmd = "help" ∨ cmd = "" then Except.ok CliOutcome.help
      else Except.ok (CliOutcome.result (handleTool tools cmd args))

/-- C4 counterexample: invoking a tool with a malformed JSON argument string
makes the top-level JSON.parse throw before the dispatch boundary is ever
reached, so the invocation propagates an uncaught exception instead of
yielding a structured result object (here with an empty dispatch table,
whose contents the parse failure never consults). -/
theorem cli_invalid_json_uncaught_cex :
    cliMain [] (some "visual_regression") (some "\x7b") = Except.error jsonSyntaxError := rfl

/-- C4 (amended): whenever the argument string is absent, empty, or valid
JSON, the CLI never propagates an exception: it yields the help text or a
single structured object, with an unknown tool reported as an error object
listing the available tools, and a thrown tool failure caught at the
dispatch boundary and serialized as an error object. A malformed JSON
argument string, however, throws uncaught before dispatch. -/
theorem cli_structured_output (tools : List (String × (JsValue → Except JsError JsValue)))
    (argv2 argv3 : Option String) (a : JsValue) (h : cliArgs argv3 = some a) :
    (∃ o, cliMain tools argv2 argv3 = Except.ok o)
    ∧ (∀ cmd, argv2 = some cmd → ¬ (cmd = "help" ∨ cmd = "") →
        cliMain tools argv2 argv3
          = Except.ok (CliOutcome.result (handleTool tools cmd a)))
    ∧ (∀ name args2, tools.lookup name = none →
        handleTool tools name args2
          = JsValue.obj [("error", JsValue.str ("Unknown tool: " ++ name)),
                         ("available", JsValue.arr (tools.map fun p => JsValue.str p.1))])
    ∧ (∀ name args2 f e, tools.lookup name = some f → f args2 = Except.error e →
        handleTool tools name args2 = JsValue.obj [("error", JsValue.str e)]) := by
  refine ⟨?_, ?_, ?_, ?_⟩
  · unfold cliMain
    rw [h]
    cases argv2 with
    | none => exact ⟨CliOutcome.help, rfl⟩
    | some cmd =>
      by_cases hc : cmd = "help" ∨ cmd = ""
      · exact ⟨CliOutcome.help, by simp [hc]⟩
      · exact ⟨CliOutcome.result (handleTool tools cmd a), by simp [hc]⟩
  · intro cmd hcmd hnc
    subst hcmd
    unfold cliMain
    rw [h]
    simp [hnc]
  · intro name args2 hl
    unfold handleTool
    rw [hl]
  · intro name args2 f e hl hf
    unfold handleTool
    rw [hl]
    dsimp only
    rw [hf]

/-- Concrete dispatch table for the C4 witness: one succeeding and one
throwing tool. -/
def toolsW : List (String × (JsValue → Except JsError JsValue)) :=
  [("ping", fun _ => Except.ok (JsValue.obj [("success", JsValue.bool true)])),
   ("boom", fun _ => Except.error "boom failed")]

theorem cli_structured_output_witness :
    cliMain toolsW (some "ping") (some "{}")
      = Except.ok (CliOutcome.result (handleTool toolsW "ping" (JsValue.obj []))) :=
  (cli_structured_output toolsW (some "ping") (some "{}") (JsValue.obj []) rfl).2.1
    "ping" rfl (by decide)
